import Mathlib

/-!
# Verification of the e-commerce data-pipeline quality subsystem

Shallow embedding of the data-quality / anomaly-detection layer:

* `src/src/quality/data_quality_checks.py` — the check runner
  (`DataQualityChecker.run_check`), the four dimension batteries, the
  summary grader and the JSON result sink;
* `src/src/quality/detect_anomalies.py` — Z-score outlier detection and
  business-rule violation detection;
* `src/src/quality/generate_quality_report.py` — the per-issue deduction
  scorer and the report grader;
* `src/airflow/dags/daily_quality_check.py` and
  `src/airflow/dags/weekly_full_pipeline.py` — the equal-weight dimension
  aggregation and the threshold grade table applied to `overall_score`.

Queries against the external store are modelled by an environment mapping
query text to either a scalar result or a raised exception
(`Except String Int`); Python floats in the scoring paths are modelled by
`ℚ` (every constant involved is exactly representable, and only exact
comparisons occur on the verified paths).
-/

/-- One entry of `DataQualityChecker.results`. A Python dict carries the
keys `expected`/`actual` only on the success path and `error` only on the
exception path; the absent keys are modelled by `none`. The wall-clock
`timestamp` key is not modelled. -/
structure CheckResult where
  check_name : String
  severity : String
  status : String
  expected : Option Int
  actual : Option Int
  error : Option String
  deriving Repr, DecidableEq

/-- The mutable per-run state of `DataQualityChecker`: the ordered result
log and the two counters. -/
structure CheckerState where
  results : List CheckResult
  passed : Nat
  failed : Nat
  deriving Repr, DecidableEq

/-- State of a freshly constructed `DataQualityChecker`. -/
def initState : CheckerState :=
  { results := [], passed := 0, failed := 0 }

/-- Embedding of `DataQualityChecker.run_check`. The underlying
`self.db.execute_query(query)` call is modelled by its outcome
`qres : Except String Int`: `Except.ok r` when the query returns the
scalar `r`, `Except.error e` when it raises with message `e`. The
function returns the bool returned to the caller together with the
updated checker state; the `except` branch of the source catches the
exception, so the embedding is total. -/
def run_check (s : CheckerState) (check_name : String)
    (qres : Except String Int) (expected : Int) (severity : String) :
    Bool × CheckerState :=
  match qres with
  | Except.ok result =>
      let ok := result == expected
      let entry : CheckResult :=
        { check_name := check_name, severity := severity,
          status := if ok then "PASS" else "FAIL",
          expected := some expected, actual := some result, error := none }
      if ok then
        (true, { s with results := s.results ++ [entry],
                        passed := s.passed + 1 })
      else
        (false, { s with results := s.results ++ [entry],
                         failed := s.failed + 1 })
  | Except.error e =>
      let entry : CheckResult :=
        { check_name := check_name, severity := severity,
          status := "ERROR",
          expected := none, actual := none, error := some e }
      (false, { s with results := s.results ++ [entry],
                       failed := s.failed + 1 })

/-- The single result entry that one `run_check` invocation appends,
as a function of the query outcome. -/
def runEntry (check_name : String) (qres : Except String Int)
    (expected : Int) (severity : String) : CheckResult :=
  match qres with
  | Except.ok result =>
      { check_name := check_name, severity := severity,
        status := if result == expected then "PASS" else "FAIL",
        expected := some expected, actual := some result, error := none }
  | Except.error e =>
      { check_name := check_name, severity := severity,
        status := "ERROR",
        expected := none, actual := none, error := some e }

/-- A catalog entry of one quality check: the arguments the dimension
batteries pass to `run_check`. -/
structure CheckDef where
  check_name : String
  query : String
  expected : Int
  severity : String
  deriving Repr, DecidableEq

/-- The six checks issued by `DataQualityChecker.check_completeness`,
in source order. -/
def completeness_checks : List CheckDef :=
  [ { check_name := "Customers: No NULL emails",
      query := "SELECT COUNT(*) FROM customers WHERE email IS NULL",
      expected := 0, severity := "ERROR" },
    { check_name := "Customers: No NULL customer_ids",
      query := "SELECT COUNT(*) FROM customers WHERE customer_id IS NULL",
      expected := 0, severity := "ERROR" },
    { check_name := "Products: No NULL product names",
      query := "SELECT COUNT(*) FROM products WHERE product_name IS NULL",
      expected := 0, severity := "ERROR" },
    { check_name := "Products: No NULL prices",
      query := "SELECT COUNT(*) FROM products WHERE price IS NULL",
      expected := 0, severity := "ERROR" },
    { check_name := "Orders: No NULL order_ids",
      query := "SELECT COUNT(*) FROM orders WHERE order_id IS NULL",
      expected := 0, severity := "ERROR" },
    { check_name := "Orders: No NULL total_amounts",
      query := "SELECT COUNT(*) FROM orders WHERE total_amount IS NULL",
      expected := 0, severity := "ERROR" } ]

/-- The six checks issued by `DataQualityChecker.check_validity`,
in source order. -/
def validity_checks : List CheckDef :=
  [ { check_name := "Customers: Age between 18-120",
      query := "SELECT COUNT(*) FROM customers WHERE age < 18 OR age > 120",
      expected := 0, severity := "ERROR" },
    { check_name := "Products: Price > 0",
      query := "SELECT COUNT(*) FROM products WHERE price <= 0",
      expected := 0, severity := "ERROR" },
    { check_name := "Orders: Total amount > 0",
      query := "SELECT COUNT(*) FROM orders WHERE total_amount <= 0",
      expected := 0, severity := "ERROR" },
    { check_name := "Orders: Quantity > 0",
      query := "SELECT COUNT(*) FROM orders WHERE quantity <= 0",
      expected := 0, severity := "ERROR" },
    { check_name := "Customers: Valid email format",
      query := "SELECT COUNT(*) FROM customers WHERE email NOT LIKE \x27%@%.%\x27",
      expected := 0, severity := "ERROR" },
    { check_name := "Orders: No future order dates",
      query := "SELECT COUNT(*) FROM orders WHERE order_date > CURRENT_TIMESTAMP",
      expected := 0, severity := "ERROR" } ]

/-- The four checks issued by `DataQualityChecker.check_consistency`,
in source order (multi-line query text flattened to one line). -/
def consistency_checks : List CheckDef :=
  [ { check_name := "Orders: All customer_ids exist in customers",
      query := "SELECT COUNT(*) FROM orders o LEFT JOIN customers c ON o.customer_id = c.customer_id WHERE c.customer_id IS NULL",
      expected := 0, severity := "ERROR" },
    { check_name := "Orders: All product_ids exist in products",
      query := "SELECT COUNT(*) FROM orders o LEFT JOIN products p ON o.product_id = p.product_id WHERE p.product_id IS NULL",
      expected := 0, severity := "ERROR" },
    { check_name := "Orders: Quantity * Price = Total (within 1%)",
      query := "SELECT COUNT(*) FROM orders o JOIN products p ON o.product_id = p.product_id WHERE ABS(o.total_amount - (o.quantity * p.price)) > (o.quantity * p.price * 0.01)",
      expected := 0, severity := "WARNING" },
    { check_name := "Customer Summary: Row count matches active customers",
      query := "SELECT ABS((SELECT COUNT(DISTINCT customer_id) FROM orders WHERE order_status = \x27Delivered\x27) - (SELECT COUNT(*) FROM customer_summary))",
      expected := 0, severity := "WARNING" } ]

/-- The four checks issued by `DataQualityChecker.check_uniqueness`,
in source order. -/
def uniqueness_checks : List CheckDef :=
  [ { check_name := "Customers: No duplicate customer_ids",
      query := "SELECT COUNT(*) - COUNT(DISTINCT customer_id) FROM customers",
      expected := 0, severity := "ERROR" },
    { check_name := "Products: No duplicate product_ids",
      query := "SELECT COUNT(*) - COUNT(DISTINCT product_id) FROM products",
      expected := 0, severity := "ERROR" },
    { check_name := "Orders: No duplicate order_ids",
      query := "SELECT COUNT(*) - COUNT(DISTINCT order_id) FROM orders",
      expected := 0, severity := "ERROR" },
    { check_name := "Customers: No duplicate emails",
      query := "SELECT COUNT(*) - COUNT(DISTINCT email) FROM customers",
      expected := 0, severity := "ERROR" } ]

/-- One dimension battery: each check calls `run_check` in listed order,
feeding the state through (each `check_*` method of the source is this
fold over its catalog). -/
def runBattery (env : String → Except String Int)
    (s : CheckerState) (checks : List CheckDef) : CheckerState :=
  checks.foldl
    (fun st c => (run_check st c.check_name (env c.query) c.expected c.severity).2) s

/-- The result entry a check produces under an environment. -/
def check_outcome (env : String → Except String Int) (c : CheckDef) : CheckResult :=
  runEntry c.check_name (env c.query) c.expected c.severity

/-- Embedding of `DataQualityChecker._save_results`: serializing `self.results` to a
JSON file. The write outcome is modelled by `w : Except String Unit`;
the source catches every exception and only logs it, so the in-memory
checker state is returned unchanged on both paths. -/
def save_results (w : Except String Unit) (s : CheckerState) : CheckerState :=
  match w with
  | Except.ok _ => s
  | Except.error _ => s

/-- Embedding of `DataQualityChecker.run_all_checks`: the four dimension batteries in
source order, then the summary print (no state change) and
`_save_results`, returning `self.results`. The returned value is the
results list paired with the final checker state. -/
def run_all_checks (env : String → Except String Int)
    (w : Except String Unit) : List CheckResult × CheckerState :=
  let s1 := runBattery env initState completeness_checks
  let s2 := runBattery env s1 validity_checks
  let s3 := runBattery env s2 consistency_checks
  let s4 := runBattery env s3 uniqueness_checks
  let s5 := save_results w s4
  (s5.results, s5)

/-! ## Anomaly detector (`src/src/quality/detect_anomalies.py`) -/

/-- Embedding of `df[column].mean()` over a nonempty column modelled as a list of
rationals. (Only consulted on the branch where the column has at least
two rows, so the empty-column NaN case never reaches it.) -/
def colMean (xs : List ℚ) : ℚ :=
  xs.sum / (xs.length : ℚ)

/-- The square of `df[column].std()` (pandas sample standard deviation,
`ddof = 1`), kept in `ℚ` to avoid the square root; defined on columns
with at least two rows, where the source's `std` is a number. -/
def sampleVariance (xs : List ℚ) : ℚ :=
  ((xs.map (fun x => (x - colMean xs) ^ 2)).sum) / ((xs.length : ℚ) - 1)

/-- Whether a row survives the filter `df['z_score'] > threshold` with
`z_score = |x - m| / std`, `std = sqrt v > 0`, expressed without leaving
`ℚ`: for `t < 0` the comparison always holds, otherwise it is the
squared comparison. -/
def zExceeds (x m v t : ℚ) : Bool :=
  decide (t < 0) || decide (t ^ 2 * v < (x - m) ^ 2)

/-- Embedding of `AnomalyDetector.z_score_outliers` on one numeric column. With fewer
than two rows pandas yields `std = NaN`; then the source's `std == 0`
guard is false and every comparison `NaN > threshold` in the filter is
false, so no row is selected — that path is the first branch. With
`std == 0` the source returns an empty frame before any division. -/
def z_score_outliers (xs : List ℚ) (threshold : ℚ) : List ℚ :=
  if xs.length < 2 then
    []
  else if sampleVariance xs = 0 then
    []
  else
    xs.filter (fun x => zExceeds x (colMean xs) (sampleVariance xs) threshold)

/-- One entry of `AnomalyDetector.self.anomalies`. -/
structure Anomaly where
  kind : String
  count : Nat
  severity : String
  details : String
  deriving Repr, DecidableEq

/-- Embedding of `AnomalyDetector.detect_business_rule_violations`, as a function of
the three scalar query results: the count of orders above 200000 with
status Delivered (`high_value`), the count of customers with more than
20 orders (`frequent`), and the count of orders with
`total_amount = 0` (`zero_revenue`). Returns the list of entries the
method appends to `self.anomalies`. -/
def detect_business_rule_violations
    (high_value frequent zero_revenue : Nat) : List Anomaly :=
  let violations : List String :=
    (if high_value > 0 then [toString high_value ++ " very high-value orders"] else []) ++
    (if frequent > 0 then [toString frequent ++ " highly active customers"] else []) ++
    (if zero_revenue > 0 then [toString zero_revenue ++ " zero-revenue orders"] else [])
  if violations.isEmpty then []
  else
    [ { kind := "Business Rule Violations", count := violations.length,
        severity := "WARNING",
        details := String.intercalate ", " violations } ]

/-! ## Deduction scorer (`src/src/quality/generate_quality_report.py`) -/

/-- One entry of the issue lists built by `detect_null_values`,
`detect_duplicates` and `detect_data_quality_issues`. -/
structure Issue where
  kind : String
  table : String
  column : String
  count : Nat
  percentage : ℚ
  severity : String
  fix : String
  deriving Repr, DecidableEq

/-- Embedding of `QualityReportGenerator.calculate_quality_score`. The Python tests
`'🔴' in issue['severity']` and `'🟡' in issue['severity']` are
single-character membership tests, modelled on the character list of the
severity string. -/
def calculate_quality_score (issues : List Issue) : ℚ :=
  let base_score :=
    issues.foldl
      (fun acc issue =>
        if issue.severity.data.contains '🔴' then acc - 5
        else if issue.severity.data.contains '🟡' then acc - 2
        else acc)
      (100 : ℚ)
  max 0 base_score

/-! ## Graders -/

/-- Grade table of `aggregate_quality_score` in
`airflow/dags/daily_quality_check.py`, applied to `overall_score`. -/
def aggregate_grade (overall_score : ℚ) : String :=
  if overall_score ≥ 99 then "A+ (Excellent)"
  else if overall_score ≥ 95 then "A (Very Good)"
  else if overall_score ≥ 90 then "B (Good)"
  else if overall_score ≥ 80 then "C (Acceptable)"
  else "F (Needs Attention)"

/-- Equal-weight average of the four dimension scores
(`aggregate_quality_score` in `daily_quality_check.py`:
`(completeness + validity + consistency + uniqueness) / 4`). -/
def overall_score_of (completeness validity consistency uniqueness : ℚ) : ℚ :=
  (completeness + validity + consistency + uniqueness) / 4

/-- The dimension scores hardcoded by `run_quality_checks` in
`airflow/dags/weekly_full_pipeline.py`, in dict order. -/
def weekly_quality_scores : List ℚ := [100, 100, 99, 100]

/-- Grade table of `DataQualityChecker._print_summary` in
`data_quality_checks.py`, applied to the pass rate. -/
def summary_grade (pass_rate : ℚ) : String :=
  if pass_rate = 100 then "A+ (Excellent)"
  else if pass_rate ≥ 95 then "A (Very Good)"
  else if pass_rate ≥ 90 then "B (Good)"
  else if pass_rate ≥ 80 then "C (Acceptable)"
  else "F (Needs Attention)"

/-- Grade table of `QualityReportGenerator.generate_html` in
`generate_quality_report.py`, applied to the deduction quality score. -/
def report_grade (quality_score : ℚ) : String :=
  if quality_score ≥ 95 then "A+ (Excellent)"
  else if quality_score ≥ 90 then "A (Very Good)"
  else if quality_score ≥ 80 then "B (Good)"
  else "C (Needs Attention)"

/-- Grade table of `run_quality_checks` in `weekly_full_pipeline.py`,
applied to `overall_score` (this variant has no 80 band and no F). -/
def weekly_grade (overall_score : ℚ) : String :=
  if overall_score ≥ 99 then "A+ (Excellent)"
  else if overall_score ≥ 95 then "A (Very Good)"
  else if overall_score ≥ 90 then "B (Good)"
  else "C (Acceptable)"

/-- Rank of a grade label in the letter order F < C < B < A < A+ (the
two C labels of the different variants rank equally). -/
def gradeRank (g : String) : Nat :=
  if g = "F (Needs Attention)" then 0
  else if g = "C (Acceptable)" then 1
  else if g = "C (Needs Attention)" then 1
  else if g = "B (Good)" then 2
  else if g = "A (Very Good)" then 3
  else if g = "A+ (Excellent)" then 4
  else 0

/-- One `run_check` invocation as data: the arguments together with the
outcome of its underlying query. -/
structure Invocation where
  check_name : String
  qres : Except String Int
  expected : Int
  severity : String

/-- Run a sequence of `run_check` invocations on a freshly constructed
checker. -/
def applyInvocations (invs : List Invocation) : CheckerState :=
  invs.foldl
    (fun s i => (run_check s i.check_name i.qres i.expected i.severity).2)
    initState

/-- Environment for the concrete completeness scenario: the null count of
`orders.total_amount` is 3, every other query returns 0. -/
def single_failure_env : String → Except String Int :=
  fun q =>
    if q = "SELECT COUNT(*) FROM orders WHERE total_amount IS NULL" then Except.ok 3
    else Except.ok 0

/-- A concrete issue list with one critical and one warning issue, as
built by `detect_duplicates` and `detect_null_values`. -/
def sample_issues : List Issue :=
  [ { kind := "Duplicate Records", table := "orders", column := "order_id",
      count := 2, percentage := 0, severity := "🔴 CRITICAL",
      fix := "DELETE FROM orders WHERE order_id IN (...)" },
    { kind := "Null Values", table := "customers", column := "email",
      count := 7, percentage := 1, severity := "🟡 WARNING",
      fix := "UPDATE customers SET email = UNKNOWN WHERE email IS NULL" } ]

/-! ## Helper lemmas on the check runner -/

theorem run_check_results (s : CheckerState) (n : String)
    (q : Except String Int) (e : Int) (sev : String) :
    (run_check s n q e sev).2.results = s.results ++ [runEntry n q e sev] := by
  cases q with
  | ok r =>
      by_cases h : (r == e) = true <;>
        simp [run_check, runEntry, h]
  | error msg => simp [run_check, runEntry]

theorem run_check_counters (s : CheckerState) (n : String)
    (q : Except String Int) (e : Int) (sev : String) :
    (run_check s n q e sev).2.passed + (run_check s n q e sev).2.failed =
      s.passed + s.failed + 1 := by
  cases q with
  | ok r =>
      by_cases h : (r == e) = true <;>
        simp [run_check, h] <;> omega
  | error msg => simp [run_check]; omega

theorem run_check_step (s : CheckerState) (n : String)
    (q : Except String Int) (e : Int) (sev : String) :
    ((run_check s n q e sev).2.passed = s.passed + 1 ∧
      (run_check s n q e sev).2.failed = s.failed) ∨
    ((run_check s n q e sev).2.passed = s.passed ∧
      (run_check s n q e sev).2.failed = s.failed + 1) := by
  cases q with
  | ok r =>
      by_cases h : (r == e) = true
      · left; simp [run_check, h]
      · right; simp [run_check, h]
  | error msg => right; simp [run_check]

theorem run_check_fst (s : CheckerState) (n : String)
    (q : Except String Int) (e : Int) (sev : String) :
    ((run_check s n q e sev).1 = true ↔ (runEntry n q e sev).status = "PASS") := by
  cases q with
  | ok r =>
      by_cases h : (r == e) = true
      · simp [run_check, runEntry, h]
      · simp only [run_check, runEntry, h]
        constructor
        · intro hc; exact absurd hc (by simp)
        · intro hc; exact absurd hc (by decide)
  | error msg =>
      simp only [run_check, runEntry]
      constructor
      · intro hc; exact absurd hc (by simp)
      · intro hc; exact absurd hc (by decide)

theorem runBattery_results (env : String → Except String Int)
    (checks : List CheckDef) (s : CheckerState) :
    (runBattery env s checks).results = s.results ++ checks.map (check_outcome env) := by
  induction checks generalizing s with
  | nil => simp [runBattery]
  | cons c t ih =>
      simp only [runBattery, List.foldl_cons, List.map_cons]
      rw [show List.foldl _ _ t =
            runBattery env (run_check s c.check_name (env c.query) c.expected c.severity).2 t
          from rfl]
      rw [ih, run_check_results]
      simp [check_outcome]

theorem runBattery_counters (env : String → Except String Int)
    (checks : List CheckDef) (s : CheckerState) :
    (runBattery env s checks).passed + (runBattery env s checks).failed =
      s.passed + s.failed + checks.length := by
  induction checks generalizing s with
  | nil => simp [runBattery]
  | cons c t ih =>
      simp only [runBattery, List.foldl_cons, List.length_cons]
      rw [show List.foldl _ _ t =
            runBattery env (run_check s c.check_name (env c.query) c.expected c.severity).2 t
          from rfl]
      rw [ih, run_check_counters]
      omega

/-! ## Claims about the check runner -/

/-- Claim C2: when the underlying query of a check raises, `run_check`
returns normally (no propagation) with the value `false`, records one
result with status `ERROR` carrying the error message, no `expected` and
no `actual` value, and counts the check toward `failed`; and a battery of
N checks always records exactly N results, whatever mix of successes and
exceptions the environment produces. -/
theorem run_check_error_fail_soft :
    (∀ (s : CheckerState) (n msg : String) (e : Int) (sev : String),
        run_check s n (Except.error msg) e sev =
          (false,
           { s with
               results := s.results ++
                 [{ check_name := n, severity := sev, status := "ERROR",
                    expected := none, actual := none, error := some msg }],
               failed := s.failed + 1 })) ∧
    (∀ (env : String → Except String Int) (s : CheckerState) (checks : List CheckDef),
        (runBattery env s checks).results.length =
          s.results.length + checks.length) := by
  constructor
  · intro s n msg e sev
    rfl
  · intro env s checks
    rw [runBattery_results]
    simp

/-- Claim C4: on a successful query, `run_check` compares the returned
scalar to the expected value with strict equality, records `PASS` exactly
on equality and `FAIL` otherwise with the scalar in the `actual` field,
and returns `true` iff they were equal; in the concrete six-check
completeness battery where only the `orders.total_amount` null count is
nonzero (3), the run reports `passed = 5`, `failed = 1`, and the single
failing entry is the total-amount check with `actual = 3`. -/
theorem run_check_strict_equality :
    (∀ (s : CheckerState) (n : String) (r e : Int) (sev : String),
        (run_check s n (Except.ok r) e sev).2.results =
          s.results ++
            [{ check_name := n, severity := sev,
               status := if r = e then "PASS" else "FAIL",
               expected := some e, actual := some r, error := none }] ∧
        ((run_check s n (Except.ok r) e sev).1 = true ↔ r = e)) ∧
    (runBattery single_failure_env initState completeness_checks).passed = 5 ∧
    (runBattery single_failure_env initState completeness_checks).failed = 1 ∧
    ((runBattery single_failure_env initState completeness_checks).results.filter
        (fun cr => cr.status == "FAIL")).map (fun cr => (cr.check_name, cr.actual)) =
      [("Orders: No NULL total_amounts", some 3)] := by
  refine ⟨fun s n r e sev => ⟨?_, ?_⟩, by rfl, by rfl, by rfl⟩
  · rw [run_check_results]
    by_cases h : r = e <;> simp [runEntry, h]
  · rw [run_check_fst]
    by_cases h : r = e <;> simp [runEntry, h]

/-- Claim C8: a failure while writing the JSON results file is contained:
for every write outcome the returned value and final state coincide with
those of a successful write, the already-computed in-memory results are
unmodified, and `run_all_checks` still returns the full results list. -/
theorem save_failure_contained :
    ∀ (env : String → Except String Int) (w : Except String Unit),
      run_all_checks env w = run_all_checks env (Except.ok ()) ∧
      (run_all_checks env w).1 = (run_all_checks env w).2.results ∧
      (run_all_checks env w).1 =
        (runBattery env (runBattery env (runBattery env
          (runBattery env initState completeness_checks)
          validity_checks) consistency_checks) uniqueness_checks).results := by
  intro env w
  cases w with
  | ok u => exact ⟨rfl, rfl, rfl⟩
  | error msg => exact ⟨rfl, rfl, rfl⟩

/-- Claim C9: inside one invocation of `run_all_checks` the dimension
batteries run in the order Completeness, Validity, Consistency,
Uniqueness and each battery's checks run in listed order, so the final
ordered result log is the concatenation of the four batteries' logs,
each being the in-order image of its catalog. -/
theorem battery_order :
    ∀ (env : String → Except String Int) (w : Except String Unit),
      (run_all_checks env w).2.results =
        completeness_checks.map (check_outcome env) ++
        validity_checks.map (check_outcome env) ++
        consistency_checks.map (check_outcome env) ++
        uniqueness_checks.map (check_outcome env) ∧
      (∀ checks : List CheckDef,
        (runBattery env initState checks).results = checks.map (check_outcome env)) := by
  intro env w
  constructor
  · have hsave : (run_all_checks env w).2.results =
        (runBattery env (runBattery env (runBattery env
          (runBattery env initState completeness_checks)
          validity_checks) consistency_checks) uniqueness_checks).results := by
      cases w <;> rfl
    rw [hsave, runBattery_results, runBattery_results, runBattery_results,
      runBattery_results]
    simp [initState, List.append_assoc]
  · intro checks
    rw [runBattery_results]
    simp [initState]

/-- Claim C10: every `run_check` invocation appends exactly one entry to
the result log and bumps exactly one of the two counters, it returns
`true` iff the appended entry's status is `PASS`, and hence after any
sequence of invocations on a fresh checker the invariant
`passed + failed = results.length` holds. -/
theorem run_check_counter_invariant :
    (∀ invs : List Invocation,
        (applyInvocations invs).passed + (applyInvocations invs).failed =
          (applyInvocations invs).results.length) ∧
    (∀ (s : CheckerState) (i : Invocation),
        (run_check s i.check_name i.qres i.expected i.severity).2.results =
          s.results ++ [runEntry i.check_name i.qres i.expected i.severity] ∧
        (((run_check s i.check_name i.qres i.expected i.severity).2.passed = s.passed + 1 ∧
          (run_check s i.check_name i.qres i.expected i.severity).2.failed = s.failed) ∨
         ((run_check s i.check_name i.qres i.expected i.severity).2.passed = s.passed ∧
          (run_check s i.check_name i.qres i.expected i.severity).2.failed = s.failed + 1)) ∧
        ((run_check s i.check_name i.qres i.expected i.severity).1 = true ↔
          (runEntry i.check_name i.qres i.expected i.severity).status = "PASS")) := by
  constructor
  · have key : ∀ (invs : List Invocation) (s : CheckerState),
        (invs.foldl
          (fun st i => (run_check st i.check_name i.qres i.expected i.severity).2) s).passed +
        (invs.foldl
          (fun st i => (run_check st i.check_name i.qres i.expected i.severity).2) s).failed =
          s.passed + s.failed + invs.length ∧
        (invs.foldl
          (fun st i => (run_check st i.check_name i.qres i.expected i.severity).2) s).results.length =
          s.results.length + invs.length := by
      intro invs
      induction invs with
      | nil => intro s; simp
      | cons i t ih =>
          intro s
          simp only [List.foldl_cons, List.length_cons]
          obtain ⟨h1, h2⟩ :=
            ih (run_check s i.check_name i.qres i.expected i.severity).2
          refine ⟨?_, ?_⟩
          · rw [h1, run_check_counters]; omega
          · rw [h2, run_check_results]; simp; omega
    intro invs
    obtain ⟨h1, h2⟩ := key invs initState
    show (invs.foldl
        (fun st i => (run_check st i.check_name i.qres i.expected i.severity).2)
        initState).passed +
      (invs.foldl
        (fun st i => (run_check st i.check_name i.qres i.expected i.severity).2)
        initState).failed =
      (invs.foldl
        (fun st i => (run_check st i.check_name i.qres i.expected i.severity).2)
        initState).results.length
    rw [h1, h2]
    simp [initState]
  · intro s i
    exact ⟨run_check_results s _ _ _ _, run_check_step s _ _ _ _,
      run_check_fst s _ _ _ _⟩

/-! ## Claims about the anomaly detector -/

theorem colMean_const {xs : List ℚ} {c : ℚ} (hne : xs ≠ [])
    (h : ∀ x ∈ xs, x = c) : colMean xs = c := by
  have hsum : xs.sum = xs.length • c := List.sum_eq_card_nsmul xs c h
  have hlen : (xs.length : ℚ) ≠ 0 := by
    exact_mod_cast Nat.pos_iff_ne_zero.mp (List.length_pos.mpr hne)
  unfold colMean
  rw [hsum, nsmul_eq_mul]
  field_simp

theorem sampleVariance_const {xs : List ℚ} {c : ℚ}
    (h : ∀ x ∈ xs, x = c) (hm : colMean xs = c) : sampleVariance xs = 0 := by
  unfold sampleVariance
  rw [List.sum_eq_zero, zero_div]
  intro y hy
  simp only [List.mem_map] at hy
  obtain ⟨x, hx, rfl⟩ := hy
  rw [h x hx, hm]
  ring

/-- Claim C3: on a constant column (zero standard deviation) the Z-score
outlier detector returns an empty outlier set for every threshold; the
`std == 0` guard fires before any division, so no division by zero is
performed. -/
theorem z_score_outliers_constant_empty :
    ∀ (xs : List ℚ) (threshold : ℚ),
      (∀ x ∈ xs, ∀ y ∈ xs, x = y) →
      z_score_outliers xs threshold = [] := by
  intro xs t hconst
  unfold z_score_outliers
  by_cases hlen : xs.length < 2
  · simp [hlen]
  · cases xs with
    | nil => simp at hlen
    | cons a l =>
        have hc : ∀ x ∈ a :: l, x = a :=
          fun x hx => hconst x hx a (List.mem_cons_self a l)
        have hvar : sampleVariance (a :: l) = 0 :=
          sampleVariance_const hc (colMean_const (List.cons_ne_nil a l) hc)
        simp [hlen, hvar]

/-- Witness for C3: the constant column `[5, 5, 5]` yields no outliers
at threshold 3. -/
theorem z_score_outliers_constant_empty_witness :
    z_score_outliers [5, 5, 5] 3 = [] :=
  z_score_outliers_constant_empty [5, 5, 5] 3
    (by
      intro x hx y hy
      simp only [List.mem_cons, List.not_mem_nil, or_false] at hx hy
      rcases hx with h | h | h <;> rcases hy with h2 | h2 | h2 <;>
        rw [h, h2])

/-! ## Claims about the deduction scorer -/

theorem deduction_foldl (issues : List Issue) (a : ℚ)
    (h : ∀ i ∈ issues, i.severity = "🔴 CRITICAL" ∨ i.severity = "🟡 WARNING") :
    issues.foldl
      (fun acc issue =>
        if issue.severity.data.contains '🔴' then acc - 5
        else if issue.severity.data.contains '🟡' then acc - 2
        else acc) a =
    a - 5 * ((issues.filter (fun i => i.severity == "🔴 CRITICAL")).length : ℚ)
      - 2 * ((issues.filter (fun i => i.severity == "🟡 WARNING")).length : ℚ) := by
  induction issues generalizing a with
  | nil => simp
  | cons i t ih =>
      have ht : ∀ j ∈ t, j.severity = "🔴 CRITICAL" ∨ j.severity = "🟡 WARNING" :=
        fun j hj => h j (List.mem_cons_of_mem i hj)
      rcases h i (List.mem_cons_self i t) with hc | hw
      · have d1 : (("🔴 CRITICAL" : String).data.contains '🔴') = true := by decide
        have d3 : (("🔴 CRITICAL" : String) == "🔴 CRITICAL") = true := by decide
        have d4 : (("🔴 CRITICAL" : String) == "🟡 WARNING") = false := by decide
        simp only [List.foldl_cons, List.filter_cons, hc, d1, d3, d4, if_true,
          Bool.false_eq_true, if_false, List.length_cons]
        rw [ih _ ht]
        push_cast
        ring
      · have d1 : (("🟡 WARNING" : String).data.contains '🔴') = false := by decide
        have d2 : (("🟡 WARNING" : String).data.contains '🟡') = true := by decide
        have d3 : (("🟡 WARNING" : String) == "🔴 CRITICAL") = false := by decide
        have d4 : (("🟡 WARNING" : String) == "🟡 WARNING") = true := by decide
        simp only [List.foldl_cons, List.filter_cons, hw, d1, d2, d3, d4, if_true,
          Bool.false_eq_true, if_false, List.length_cons]
        rw [ih _ ht]
        push_cast
        ring

/-- Claim C5: under the deduction scoring policy of
`calculate_quality_score`, for every list of issues (severities as
produced by the three issue detectors) the overall score is 100 minus 5
per Critical issue and 2 per Warning issue, clamped to `[0, 100]`. -/
theorem calculate_quality_score_deduction :
    ∀ issues : List Issue,
      (∀ i ∈ issues, i.severity = "🔴 CRITICAL" ∨ i.severity = "🟡 WARNING") →
      calculate_quality_score issues =
        min 100 (max 0
          (100 - 5 * ((issues.filter (fun i => i.severity == "🔴 CRITICAL")).length : ℚ)
               - 2 * ((issues.filter (fun i => i.severity == "🟡 WARNING")).length : ℚ))) := by
  intro issues h
  unfold calculate_quality_score
  rw [deduction_foldl issues 100 h]
  have h1 : (0:ℚ) ≤ ((issues.filter (fun i => i.severity == "🔴 CRITICAL")).length : ℚ) := by
    positivity
  have h2 : (0:ℚ) ≤ ((issues.filter (fun i => i.severity == "🟡 WARNING")).length : ℚ) := by
    positivity
  rw [min_eq_right]
  exact max_le (by norm_num) (by linarith)

/-- Witness for C5: one critical and one warning issue score
`100 - 5 - 2 = 93`. -/
theorem calculate_quality_score_deduction_witness :
    calculate_quality_score sample_issues = 93 := by
  have h := calculate_quality_score_deduction sample_issues (by decide)
  have e1 : ((sample_issues.filter (fun i => i.severity == "🔴 CRITICAL")).length : ℚ) = 1 := by
    have hlen : (sample_issues.filter (fun i => i.severity == "🔴 CRITICAL")).length = 1 := rfl
    rw [hlen]; norm_num
  have e2 : ((sample_issues.filter (fun i => i.severity == "🟡 WARNING")).length : ℚ) = 1 := by
    have hlen : (sample_issues.filter (fun i => i.severity == "🟡 WARNING")).length = 1 := rfl
    rw [hlen]; norm_num
  rw [h, e1, e2]
  norm_num

/-! ## Claims about the business-rule detector -/

/-- Counterexample to claim C6: with one zero-revenue order (and no other
violations) the detector records exactly one finding, and its severity is
`WARNING`, not Critical — the aggregate Business Rule Violations record
always carries severity `WARNING`. -/
theorem business_rule_zero_revenue_not_critical :
    0 < 1 ∧
    (detect_business_rule_violations 0 0 1).map (fun a => a.severity) = ["WARNING"] ∧
    ("WARNING" : String) ≠ "Critical" :=
  ⟨by norm_num, by rfl, by decide⟩

/-- Claim C6 (amended): whenever the business-rule detector finds a
nonzero count of orders with `total_amount = 0`, it records a Business
Rule Violations finding, and that finding's severity is `WARNING` (the
aggregate record the method appends for any violation mix). -/
theorem business_rule_zero_revenue_warning :
    ∀ high_value frequent zero_revenue : Nat,
      0 < zero_revenue →
      (detect_business_rule_violations high_value frequent zero_revenue).map
        (fun a => a.severity) = ["WARNING"] := by
  intro hv fr zr h
  unfold detect_business_rule_violations
  by_cases h1 : hv > 0 <;> by_cases h2 : fr > 0 <;>
    simp [h1, h2, h]

/-- Witness for the amended C6: two zero-revenue orders alongside one
high-value and one frequent-customer violation still yield the single
`WARNING` finding. -/
theorem business_rule_zero_revenue_warning_witness :
    (detect_business_rule_violations 1 1 2).map (fun a => a.severity) = ["WARNING"] :=
  business_rule_zero_revenue_warning 1 1 2 (by norm_num)

/-! ## Claims about the graders -/

/-- Claim C1: the grade assigned to `overall_score` follows the fixed
cutoffs of `aggregate_quality_score` (≥99 A+, ≥95 A, ≥90 B, ≥80 C, else
F) for every score in `[0, 100]`; and the concrete scenario — dimension
scores Completeness 100, Validity 100, Consistency 99, Uniqueness 100
under equal-weight averaging — yields `overall_score = 99.75` and grade
`A+ (Excellent)` (both in the daily aggregation and in the weekly
pipeline's hardcoded score dict). -/
theorem aggregate_grade_cutoffs :
    (∀ s : ℚ, 0 ≤ s → s ≤ 100 →
        ((99 ≤ s → aggregate_grade s = "A+ (Excellent)") ∧
         (95 ≤ s → s < 99 → aggregate_grade s = "A (Very Good)") ∧
         (90 ≤ s → s < 95 → aggregate_grade s = "B (Good)") ∧
         (80 ≤ s → s < 90 → aggregate_grade s = "C (Acceptable)") ∧
         (s < 80 → aggregate_grade s = "F (Needs Attention)"))) ∧
    overall_score_of 100 100 99 100 = 99.75 ∧
    aggregate_grade (overall_score_of 100 100 99 100) = "A+ (Excellent)" ∧
    weekly_quality_scores.sum / (weekly_quality_scores.length : ℚ) = 99.75 ∧
    weekly_grade (weekly_quality_scores.sum / (weekly_quality_scores.length : ℚ)) =
      "A+ (Excellent)" := by
  have hov : overall_score_of 100 100 99 100 = 99.75 := by
    norm_num [overall_score_of]
  have hwk : weekly_quality_scores.sum / (weekly_quality_scores.length : ℚ) = 99.75 := by
    norm_num [weekly_quality_scores]
  refine ⟨?_, hov, ?_, hwk, ?_⟩
  · intro s h0 h100
    refine ⟨?_, ?_, ?_, ?_, ?_⟩
    · intro h; unfold aggregate_grade; rw [if_pos (by linarith)]
    · intro ha hb; unfold aggregate_grade
      rw [if_neg (by linarith), if_pos (by linarith)]
    · intro ha hb; unfold aggregate_grade
      rw [if_neg (by linarith), if_neg (by linarith), if_pos (by linarith)]
    · intro ha hb; unfold aggregate_grade
      rw [if_neg (by linarith), if_neg (by linarith), if_neg (by linarith),
        if_pos (by linarith)]
    · intro ha; unfold aggregate_grade
      rw [if_neg (by linarith), if_neg (by linarith), if_neg (by linarith),
        if_neg (by linarith)]
  · rw [hov]; unfold aggregate_grade; rw [if_pos (by norm_num)]
  · rw [hwk]; unfold weekly_grade; rw [if_pos (by norm_num)]

/-- Witness for C1: the A band at the concrete score 97. -/
theorem aggregate_grade_cutoffs_witness :
    aggregate_grade 97 = "A (Very Good)" :=
  (aggregate_grade_cutoffs.1 97 (by norm_num) (by norm_num)).2.1
    (by norm_num) (by norm_num)

theorem gradeRank_le_four (g : String) : gradeRank g ≤ 4 := by
  unfold gradeRank
  split_ifs <;> norm_num

theorem aggregate_grade_mono {s1 s2 : ℚ} (h : s1 ≤ s2) :
    gradeRank (aggregate_grade s1) ≤ gradeRank (aggregate_grade s2) := by
  unfold aggregate_grade
  split_ifs <;> first | decide | (exfalso; linarith)

theorem report_grade_mono {s1 s2 : ℚ} (h : s1 ≤ s2) :
    gradeRank (report_grade s1) ≤ gradeRank (report_grade s2) := by
  unfold report_grade
  split_ifs <;> first | decide | (exfalso; linarith)

theorem weekly_grade_mono {s1 s2 : ℚ} (h : s1 ≤ s2) :
    gradeRank (weekly_grade s1) ≤ gradeRank (weekly_grade s2) := by
  unfold weekly_grade
  split_ifs <;> first | decide | (exfalso; linarith)

theorem summary_grade_mono {s1 s2 : ℚ} (h12 : s1 ≤ s2) (h100 : s2 ≤ 100) :
    gradeRank (summary_grade s1) ≤ gradeRank (summary_grade s2) := by
  rcases eq_or_lt_of_le h100 with heq | hlt
  · have hs2 : summary_grade s2 = "A+ (Excellent)" := by
      unfold summary_grade; rw [if_pos heq]
    rw [hs2]
    exact le_trans (gradeRank_le_four _) (by decide)
  · have h1ne : ¬ (s1 = 100) := by intro hh; rw [hh] at h12; linarith
    have h2ne : ¬ (s2 = 100) := ne_of_lt hlt
    unfold summary_grade
    rw [if_neg h1ne, if_neg h2ne]
    split_ifs <;> first | decide | (exfalso; linarith)

/-- Claim C7: on `[0, 100]` every grading function of the repository —
the daily aggregation table, the checker's summary table, the report
generator's table and the weekly pipeline's table — is non-decreasing in
the score under the letter order F < C < B < A < A+. -/
theorem grade_monotone :
    ∀ s1 s2 : ℚ, 0 ≤ s1 → s2 ≤ 100 → s1 ≤ s2 →
      gradeRank (aggregate_grade s1) ≤ gradeRank (aggregate_grade s2) ∧
      gradeRank (summary_grade s1) ≤ gradeRank (summary_grade s2) ∧
      gradeRank (report_grade s1) ≤ gradeRank (report_grade s2) ∧
      gradeRank (weekly_grade s1) ≤ gradeRank (weekly_grade s2) :=
  fun _ _ _ h100 h12 =>
    ⟨aggregate_grade_mono h12, summary_grade_mono h12 h100,
     report_grade_mono h12, weekly_grade_mono h12⟩

/-- Witness for C7: monotonicity instantiated at the pair (85, 99). -/
theorem grade_monotone_witness :
    gradeRank (aggregate_grade 85) ≤ gradeRank (aggregate_grade 99) ∧
    gradeRank (summary_grade 85) ≤ gradeRank (summary_grade 99) ∧
    gradeRank (report_grade 85) ≤ gradeRank (report_grade 99) ∧
    gradeRank (weekly_grade 85) ≤ gradeRank (weekly_grade 99) :=
  grade_monotone 85 99 (by norm_num) (by norm_num) (by norm_num)
